import Mathlib

/-!
Shallow embedding of the PyBrowse browser shell (`src/main.py`) and proofs
about its history ledger, credential bridge, tab registry, session
snapshotter and navigation interceptor.

Conventions of the embedding:
* SQLite tables are modelled as Lean lists of rows in rowid (insertion)
  order; `CURRENT_TIMESTAMP` is an explicit `now : Nat` argument.
* Qt pages are modelled by a `PageCtx` record; `runJavaScript` against a
  destroyed page raises `RuntimeError` in Python, modelled by the
  `alive : Bool` flag (a poll against a dead page takes the caught-exception
  path).
* The Qt event loop is single-threaded, so each Python handler is embedded
  as a pure state-transformation function.
* String helpers (`strStartsWith`, `strContains`, ...) are executable
  re-implementations of the Python string operations used by the source.
-/

namespace PyBrowse

/-- Python `s.startswith(pre)` on explicit character lists
(first argument: the string, second: the candidate start). -/
def listStartsWith : List Char → List Char → Bool
  | _, [] => true
  | [], _ :: _ => false
  | a :: as, b :: bs => a == b && listStartsWith as bs

/-- Python `s.startswith(pre)`. -/
def strStartsWith (s pre : String) : Bool := listStartsWith s.data pre.data

/-! ## History ledger (`BrowserDatabase.add_to_history`, main.py:255-284)

The `history` table has columns `(id, url, title, visit_time, visit_count)`;
`id` is the autoincrement rowid, modelled by list position.  `add_to_history`
looks the url up with `SELECT ... WHERE url = ?` / `fetchone` (the first row
in rowid order) and either updates that row in place or appends a fresh row
with `visit_count = 1`. -/

structure HistoryEntry where
  url : String
  title : String
  visit_time : Nat
  visit_count : Nat
  deriving DecidableEq

/-- The `UPDATE history SET visit_count = visit_count + 1, visit_time =
CURRENT_TIMESTAMP, title = ? WHERE id = ?` statement, aimed at the row that
`fetchone` returned: the first row whose url matches. -/
def updateFirst (url title : String) (now : Nat) : List HistoryEntry → List HistoryEntry
  | [] => []
  | e :: rest =>
    if e.url = url then
      { e with visit_count := e.visit_count + 1, visit_time := now, title := title } :: rest
    else
      e :: updateFirst url title now rest

/-- `BrowserDatabase.add_to_history(url, title)`: returns unchanged on an
empty url or a `file://` url; otherwise updates the existing row for the url
or inserts a new one with `visit_count = 1`. -/
def add_to_history (store : List HistoryEntry) (now : Nat) (url title : String) :
    List HistoryEntry :=
  if url = "" ∨ strStartsWith url "file://" = true then store
  else if store.any (fun e => e.url == url) then updateFirst url title now store
  else store ++ [⟨url, title, now, 1⟩]

/-- A sequence of `add_to_history` calls for one fixed url; each call carries
its `title` argument and the timestamp at which it runs. -/
def applyVisits (store : List HistoryEntry) (url : String) (calls : List (String × Nat)) :
    List HistoryEntry :=
  calls.foldl (fun st c => add_to_history st c.2 url c.1) store

theorem updateFirst_append (url title : String) (now : Nat) (e : HistoryEntry)
    (he : e.url = url) (pre : List HistoryEntry) (hpre : ∀ x ∈ pre, x.url ≠ url) :
    updateFirst url title now (pre ++ [e]) =
      pre ++ [{ e with visit_count := e.visit_count + 1, visit_time := now, title := title }] := by
  induction pre with
  | nil => simp [updateFirst, he]
  | cons x xs ih =>
    have hx : x.url ≠ url := hpre x (by simp)
    have ih' := ih (fun y hy => hpre y (by simp [hy]))
    simp only [List.cons_append, updateFirst, if_neg hx, List.append_eq]
    rw [ih']

theorem applyVisits_aux (url : String)
    (hu : ¬ (url = "" ∨ strStartsWith url "file://" = true)) :
    ∀ (calls : List (String × Nat)) (pre : List HistoryEntry) (t : String) (n k : Nat),
      (∀ x ∈ pre, x.url ≠ url) →
      applyVisits (pre ++ [⟨url, t, n, k⟩]) url calls =
        pre ++ [⟨url, (calls.getLastD (t, n)).1, (calls.getLastD (t, n)).2,
                 k + calls.length⟩]
  | [], pre, t, n, k, _ => by simp [applyVisits]
  | c :: cs, pre, t, n, k, hpre => by
    have hany : (pre ++ [(⟨url, t, n, k⟩ : HistoryEntry)]).any (fun e => e.url == url) = true := by
      simp
    have hstep : add_to_history (pre ++ [⟨url, t, n, k⟩]) c.2 url c.1 =
        pre ++ [⟨url, c.1, c.2, k + 1⟩] := by
      rw [add_to_history, if_neg hu, if_pos hany]
      exact updateFirst_append url c.1 c.2 ⟨url, t, n, k⟩ rfl pre hpre
    have hfold : applyVisits (pre ++ [(⟨url, t, n, k⟩ : HistoryEntry)]) url (c :: cs) =
        applyVisits (add_to_history (pre ++ [⟨url, t, n, k⟩]) c.2 url c.1) url cs := rfl
    rw [hfold, hstep, applyVisits_aux url hu cs pre c.1 c.2 (k + 1) hpre]
    have hlast : (c :: cs).getLastD (t, n) = cs.getLastD c := List.getLastD_cons ..
    have heta : (c.1, c.2) = c := rfl
    have harith : k + 1 + cs.length = k + (c :: cs).length := by
      simp only [List.length_cons]
      omega
    rw [hlast, heta, harith]

/-- Claim C1: for every sequence of `add_to_history` calls sharing the same
non-empty, non-`file://` url, starting from a store with no entry for that
url, the store afterwards contains exactly one `HistoryEntry` for the url;
its `visit_count` equals the number of calls and its `title` and
`visit_time` equal the arguments of the last call. -/
theorem add_to_history_visit_count (store : List HistoryEntry) (url : String)
    (calls : List (String × Nat))
    (h1 : url ≠ "") (h2 : strStartsWith url "file://" = false)
    (h3 : ∀ e ∈ store, e.url ≠ url) (h4 : calls ≠ []) :
    (applyVisits store url calls).filter (fun e => e.url == url) =
      [⟨url, (calls.getLastD ("", 0)).1, (calls.getLastD ("", 0)).2, calls.length⟩] := by
  have hu : ¬ (url = "" ∨ strStartsWith url "file://" = true) := by
    rintro (h | h)
    · exact h1 h
    · rw [h2] at h
      exact Bool.false_ne_true h
  obtain ⟨c, cs, rfl⟩ : ∃ c cs, calls = c :: cs := by
    cases calls with
    | nil => exact absurd rfl h4
    | cons c cs => exact ⟨c, cs, rfl⟩
  have hany : store.any (fun e => e.url == url) = false := by
    simp only [List.any_eq_false, beq_iff_eq]
    exact h3
  have hstep : add_to_history store c.2 url c.1 = store ++ [⟨url, c.1, c.2, 1⟩] := by
    rw [add_to_history, if_neg hu, hany]
    simp
  have hfold : applyVisits store url (c :: cs) =
      applyVisits (add_to_history store c.2 url c.1) url cs := rfl
  rw [hfold, hstep, applyVisits_aux url hu cs store c.1 c.2 1 h3]
  have hlast : (c :: cs).getLastD ("", 0) = cs.getLastD c := List.getLastD_cons ..
  have heta : (c.1, c.2) = c := rfl
  rw [List.filter_append, hlast, heta]
  have hpre : store.filter (fun e => e.url == url) = [] := by
    simp only [List.filter_eq_nil_iff, beq_iff_eq]
    exact h3
  have harith : 1 + cs.length = (c :: cs).length := by
    simp only [List.length_cons]
    omega
  rw [hpre, harith]
  simp

/-- Witness for C1 at a concrete two-call sequence on the empty store. -/
theorem add_to_history_visit_count_witness :
    ("https://example.com" ≠ "" ∧
      strStartsWith "https://example.com" "file://" = false ∧
      (∀ e ∈ ([] : List HistoryEntry), e.url ≠ "https://example.com") ∧
      ([("Example", 1), ("Example Domain", 2)] : List (String × Nat)) ≠ []) ∧
    (applyVisits [] "https://example.com" [("Example", 1), ("Example Domain", 2)]).filter
        (fun e => e.url == "https://example.com") =
      [⟨"https://example.com", "Example Domain", 2, 2⟩] :=
  ⟨⟨by decide, by decide, by simp, by decide⟩,
    add_to_history_visit_count [] "https://example.com" [("Example", 1), ("Example Domain", 2)]
      (by decide) (by decide) (by simp) (by decide)⟩

/-- Claim C8: `add_to_history` with an empty url or a `file://` url leaves
the history store exactly unchanged. -/
theorem add_to_history_noop_local (store : List HistoryEntry) (now : Nat) (url title : String)
    (h : url = "" ∨ strStartsWith url "file://" = true) :
    add_to_history store now url title = store := by
  rw [add_to_history, if_pos h]

/-- Witness for C8 at a concrete local-file url on a non-empty store. -/
theorem add_to_history_noop_local_witness :
    ("file:///home/user/pybrowse_home.html" = "" ∨
      strStartsWith "file:///home/user/pybrowse_home.html" "file://" = true) ∧
    add_to_history [⟨"https://example.com", "Example", 7, 3⟩] 9
        "file:///home/user/pybrowse_home.html" "Home" =
      [⟨"https://example.com", "Example", 7, 3⟩] :=
  ⟨Or.inr (by decide),
    add_to_history_noop_local [⟨"https://example.com", "Example", 7, 3⟩] 9
      "file:///home/user/pybrowse_home.html" "Home" (Or.inr (by decide))⟩

/-! ## Credential bridge (`PasswordManager`, main.py:19-200)

The injected capture script (main.py:30-104) stores the data of a submitted form
in the page-global slot `window.pendingPasswordSave` only when both the
username and the password values are truthy (non-empty); `url` is
`window.location.href`, which is non-empty on any loaded page.

`check_for_password_save` (main.py:106-131) is the body of one 2-second poll
tick: it evaluates the slot, and when the result carries a non-empty url,
username and password it opens exactly one consent dialog
(`prompt_save_password`) and clears the slot; a `RuntimeError` from a
destroyed page is caught and ignored. -/

structure PendingSave where
  url : String
  domain : String
  username : String
  password : String
  deriving DecidableEq

/-- One page context, as far as the bridge observes it: whether the
underlying Qt page still exists, the location data of the page, and the
`window.pendingPasswordSave` slot. -/
structure PageCtx where
  alive : Bool
  href : String
  hostname : String
  pendingPasswordSave : Option PendingSave
  deriving DecidableEq

/-- The submit listener of the capture script: stores
`{url: location.href, domain: location.hostname, username, password}` into
`window.pendingPasswordSave` when both field values are truthy (non-empty);
otherwise it does nothing. -/
def submitForm (p : PageCtx) (username password : String) : PageCtx :=
  if username ≠ "" ∧ password ≠ "" then
    { p with pendingPasswordSave := some ⟨p.href, p.hostname, username, password⟩ }
  else p

/-- One tick of `PasswordManager.check_for_password_save(page)`.  Returns the
number of consent prompts shown by this tick together with the resulting
page context.  A dead page makes `runJavaScript` raise `RuntimeError`, which
the code catches and ignores (no prompt, no state change).  The slot is
cleared (set to `null`) exactly when a prompt is shown. -/
def check_for_password_save (p : PageCtx) : Nat × PageCtx :=
  if p.alive = true then
    match p.pendingPasswordSave with
    | none => (0, p)
    | some d =>
      if d.url ≠ "" ∧ d.username ≠ "" ∧ d.password ≠ "" then
        (1, { p with pendingPasswordSave := none })
      else (0, p)
  else (0, p)

/-- Claim C2: on a live page with a non-empty location, a single simulated
form submission (non-empty username and password) followed by one poll tick
yields exactly one consent prompt and clears the
`window.pendingPasswordSave` slot; a second consecutive poll tick with no
new submission yields zero prompts and changes nothing. -/
theorem check_for_password_save_once (p : PageCtx) (u pw : String)
    (halive : p.alive = true) (hhref : p.href ≠ "") (hu : u ≠ "") (hpw : pw ≠ "") :
    (check_for_password_save (submitForm p u pw)).1 = 1 ∧
    (check_for_password_save (submitForm p u pw)).2.pendingPasswordSave = none ∧
    (check_for_password_save ((check_for_password_save (submitForm p u pw)).2)).1 = 0 ∧
    (check_for_password_save ((check_for_password_save (submitForm p u pw)).2)).2 =
      (check_for_password_save (submitForm p u pw)).2 := by
  have hsub : submitForm p u pw =
      { p with pendingPasswordSave := some ⟨p.href, p.hostname, u, pw⟩ } := by
    rw [submitForm, if_pos ⟨hu, hpw⟩]
  have htick : check_for_password_save (submitForm p u pw) =
      (1, { p with pendingPasswordSave := none }) := by
    rw [hsub, check_for_password_save]
    simp only [halive, if_true]
    rw [if_pos ⟨hhref, hu, hpw⟩]
  have htick2 : check_for_password_save ({ p with pendingPasswordSave := none } : PageCtx) =
      (0, { p with pendingPasswordSave := none }) := by
    rw [check_for_password_save]
    simp [halive]
  rw [htick]
  simp [htick2]

/-- Witness for C2 at a concrete live page and submission. -/
theorem check_for_password_save_once_witness :
    ((⟨true, "https://site.example/login", "site.example", none⟩ : PageCtx).alive = true ∧
      (⟨true, "https://site.example/login", "site.example", none⟩ : PageCtx).href ≠ "" ∧
      "alice" ≠ "" ∧ "hunter2" ≠ "") ∧
    (check_for_password_save
        (submitForm ⟨true, "https://site.example/login", "site.example", none⟩
          "alice" "hunter2")).1 = 1 ∧
    (check_for_password_save
        (submitForm ⟨true, "https://site.example/login", "site.example", none⟩
          "alice" "hunter2")).2.pendingPasswordSave = none ∧
    (check_for_password_save ((check_for_password_save
        (submitForm ⟨true, "https://site.example/login", "site.example", none⟩
          "alice" "hunter2")).2)).1 = 0 ∧
    (check_for_password_save ((check_for_password_save
        (submitForm ⟨true, "https://site.example/login", "site.example", none⟩
          "alice" "hunter2")).2)).2 =
      (check_for_password_save
        (submitForm ⟨true, "https://site.example/login", "site.example", none⟩
          "alice" "hunter2")).2 :=
  ⟨⟨rfl, by decide, by decide, by decide⟩,
    check_for_password_save_once ⟨true, "https://site.example/login", "site.example", none⟩
      "alice" "hunter2" rfl (by decide) (by decide) (by decide)⟩

/-! ## Password persistence (`prompt_save_password` / `save_password`)

`prompt_save_password` (main.py:133-181) shows a modal dialog with three
buttons: "Save" is wired to `save_password_and_close`, which calls
`BrowserDatabase.save_password`; "Never for this site" and "Not now" are
both wired to `dialog.reject` and touch no database.
`BrowserDatabase.save_password` (main.py:344-360) is
`INSERT OR REPLACE INTO passwords ... VALUES (?, ?, ?, ?, CURRENT_TIMESTAMP)`
under `UNIQUE(url, username)`: any conflicting row is deleted and the fresh
row is appended (new rowid, default `created_time`). -/

structure PasswordRow where
  url : String
  domain : String
  username : String
  password : String
  created_time : Nat
  last_used : Nat
  deriving DecidableEq

/-- `BrowserDatabase.save_password`: upsert keyed by `(url, username)`. -/
def save_password (tbl : List PasswordRow) (now : Nat)
    (url domain username password : String) : List PasswordRow :=
  tbl.filter (fun r => !(r.url == url && r.username == username)) ++
    [⟨url, domain, username, password, now, now⟩]

/-- The three ways the consent dialog of `prompt_save_password` can end. -/
inductive ConsentOutcome where
  | save
  | neverForSite
  | notNow
  deriving DecidableEq

/-- `PasswordManager.prompt_save_password`, summarised by the outcome of its
modal dialog: only the "Save" button reaches
`save_password_and_close`/`save_password`; both "Never for this site" and
"Not now" run `dialog.reject` and leave the table alone. -/
def prompt_save_password (tbl : List PasswordRow) (now : Nat) (outcome : ConsentOutcome)
    (url domain username password : String) : List PasswordRow :=
  match outcome with
  | .save => save_password tbl now url domain username password
  | .neverForSite => tbl
  | .notNow => tbl

/-- Claim C3: the passwords table is written only on the Save outcome; the
"Never for this site" and "Not now" outcomes leave it exactly unchanged. -/
theorem prompt_save_password_only_save_writes (tbl : List PasswordRow) (now : Nat)
    (outcome : ConsentOutcome) (url domain username password : String)
    (h : outcome ≠ ConsentOutcome.save) :
    prompt_save_password tbl now outcome url domain username password = tbl := by
  cases outcome with
  | save => exact absurd rfl h
  | neverForSite => rfl
  | notNow => rfl

/-- Witness for C3 at the "Not now" outcome on a non-empty table. -/
theorem prompt_save_password_only_save_writes_witness :
    (ConsentOutcome.notNow ≠ ConsentOutcome.save) ∧
    prompt_save_password [⟨"https://site.example/login", "site.example", "alice",
        "old-secret", 1, 1⟩] 5 ConsentOutcome.notNow
        "https://site.example/login" "site.example" "alice" "hunter2" =
      [⟨"https://site.example/login", "site.example", "alice", "old-secret", 1, 1⟩] :=
  ⟨by decide,
    prompt_save_password_only_save_writes
      [⟨"https://site.example/login", "site.example", "alice", "old-secret", 1, 1⟩] 5
      ConsentOutcome.notNow "https://site.example/login" "site.example" "alice" "hunter2"
      (by decide)⟩

/-! ## Tab registry (`Browser`, main.py:444-993)

`Browser` keeps the ordered tab list in `self.web_views` (one
`QWebEngineView` per tab; `self.content_area` holds the same widgets in the
same order, so both are modelled by the single list `web_views`), the active
pointer in `self.current_tab_index`, the per-page credential poll timers in
the `self.password_timers` dict (modelled as the list of page ids holding a
timer), and the legacy `self.tab_buttons` list, which no code path ever
appends to (the sidebar design stores buttons in `self.tab_widgets`
instead), so only its length matters and it is modelled by a `Nat` that
stays `0`. -/

structure Tab where
  page : Nat
  url : String
  title : String
  deriving DecidableEq

structure BrowserState where
  web_views : List Tab
  current_tab_index : Nat
  password_timers : List Nat
  tab_buttons : Nat
  deriving DecidableEq

/-- `Browser.set_current_tab(tab_index)` (main.py:714-727): guarded by
`0 <= tab_index < len(self.web_views)`; on success it only moves the active
pointer (the button-check and URL-bar refreshes touch UI chrome only). -/
def set_current_tab (s : BrowserState) (tab_index : Int) : BrowserState :=
  if 0 ≤ tab_index ∧ tab_index < (s.web_views.length : Int) then
    { s with current_tab_index := tab_index.toNat }
  else s

/-- `Browser.add_new_tab` (main.py:619-680), restricted to the registry
state: append the tab (`content_area.addWidget` + `web_views.append`) and
activate it via `set_current_tab(tab_index)` with `tab_index = count - 1`. -/
def add_new_tab (s : BrowserState) (tab : Tab) : BrowserState :=
  set_current_tab { s with web_views := s.web_views ++ [tab] }
    (((s.web_views ++ [tab]).length : Int) - 1)

/-- `Browser.close_tab(tab_index)` (main.py:959-993): early-return when at
most one tab is open; otherwise stop-and-delete the poll timer of the closed page
if the `password_timers` dict holds one, remove the tab, clamp the index to
the new length and `set_current_tab` it.  (Python would raise `IndexError`
on an out-of-range index at `self.web_views[tab_index]`; the UI only calls
it with live indices, and the `none` branch models that no state change has
happened by the time the lookup fails.) -/
def close_tab (s : BrowserState) (tab_index : Nat) : BrowserState :=
  if s.web_views.length ≤ 1 then s
  else
    match s.web_views.get? tab_index with
    | none => s
    | some browser =>
      let views := s.web_views.eraseIdx tab_index
      set_current_tab
        { s with web_views := views,
                 password_timers := s.password_timers.filter (fun pg => pg != browser.page) }
        ((if views.length ≤ tab_index then views.length - 1 else tab_index : Nat) : Int)

/-- The registry operations a UI session can interleave. -/
inductive TabOp where
  | openTab (t : Tab)
  | closeTab (i : Nat)
  | setActive (i : Int)
  deriving DecidableEq

def applyOp (s : BrowserState) : TabOp → BrowserState
  | .openTab t => add_new_tab s t
  | .closeTab i => close_tab s i
  | .setActive i => set_current_tab s i

def applyOps (s : BrowserState) (ops : List TabOp) : BrowserState :=
  ops.foldl applyOp s

/-- The active-index invariant of claim C10. -/
abbrev tabInv (s : BrowserState) : Prop :=
  s.web_views ≠ [] → s.current_tab_index < s.web_views.length

theorem set_current_tab_web_views (s : BrowserState) (j : Int) :
    (set_current_tab s j).web_views = s.web_views := by
  unfold set_current_tab
  split <;> rfl

theorem set_current_tab_password_timers (s : BrowserState) (j : Int) :
    (set_current_tab s j).password_timers = s.password_timers := by
  unfold set_current_tab
  split <;> rfl

theorem set_current_tab_inbounds (s : BrowserState) (n : Nat) (h : n < s.web_views.length) :
    (set_current_tab s (n : Int)).current_tab_index = n ∧
    (set_current_tab s (n : Int)).web_views = s.web_views := by
  unfold set_current_tab
  rw [if_pos ⟨Int.natCast_nonneg n, by exact_mod_cast h⟩]
  refine ⟨?_, rfl⟩
  simp

theorem close_tab_eq_of_get? (s : BrowserState) (i : Nat) (tab : Tab)
    (h : ¬ s.web_views.length ≤ 1) (hget : s.web_views.get? i = some tab) :
    close_tab s i =
      set_current_tab
        { s with web_views := s.web_views.eraseIdx i,
                 password_timers := s.password_timers.filter (fun pg => pg != tab.page) }
        ((if (s.web_views.eraseIdx i).length ≤ i then (s.web_views.eraseIdx i).length - 1
          else i : Nat) : Int) := by
  unfold close_tab
  rw [if_neg h, hget]

theorem lt_length_of_get?_eq_some {l : List Tab} {i : Nat} {tab : Tab}
    (hget : l.get? i = some tab) : i < l.length := by
  by_contra hc
  rw [List.get?_eq_none.mpr (Nat.le_of_not_lt hc)] at hget
  exact Option.noConfusion hget

theorem close_tab_inbounds (s : BrowserState) (i : Nat) (tab : Tab)
    (h1 : ¬ s.web_views.length ≤ 1) (hget : s.web_views.get? i = some tab) :
    (close_tab s i).current_tab_index < (close_tab s i).web_views.length := by
  rw [close_tab_eq_of_get? s i tab h1 hget]
  have hi : i < s.web_views.length := lt_length_of_get?_eq_some hget
  have hlen := List.length_eraseIdx_add_one hi
  have hidx : (if (s.web_views.eraseIdx i).length ≤ i then (s.web_views.eraseIdx i).length - 1
      else i) < (s.web_views.eraseIdx i).length := by
    split <;> omega
  obtain ⟨hc, hv⟩ := set_current_tab_inbounds
    { s with web_views := s.web_views.eraseIdx i,
             password_timers := s.password_timers.filter (fun pg => pg != tab.page) }
    _ hidx
  rw [hc, hv]
  exact hidx

theorem applyOp_length (s : BrowserState) (op : TabOp) (h : 1 ≤ s.web_views.length) :
    1 ≤ (applyOp s op).web_views.length := by
  cases op with
  | openTab t =>
    show 1 ≤ (add_new_tab s t).web_views.length
    unfold add_new_tab
    rw [set_current_tab_web_views]
    simp
  | closeTab i =>
    show 1 ≤ (close_tab s i).web_views.length
    by_cases h1 : s.web_views.length ≤ 1
    · unfold close_tab
      rw [if_pos h1]
      exact h
    · cases hget : s.web_views.get? i with
      | none =>
        unfold close_tab
        rw [if_neg h1, hget]
        exact h
      | some tab =>
        rw [close_tab_eq_of_get? s i tab h1 hget, set_current_tab_web_views]
        have hi : i < s.web_views.length := lt_length_of_get?_eq_some hget
        have := List.length_eraseIdx_add_one hi
        simp only []
        omega
  | setActive j =>
    show 1 ≤ (set_current_tab s j).web_views.length
    rw [set_current_tab_web_views]
    exact h

theorem applyOps_length (s : BrowserState) (ops : List TabOp) (h : 1 ≤ s.web_views.length) :
    1 ≤ (applyOps s ops).web_views.length := by
  induction ops generalizing s with
  | nil => exact h
  | cons op rest ih => exact ih (applyOp s op) (applyOp_length s op h)

/-- Claim C7: `close_tab` is a no-op when exactly one tab remains, and under
any sequence of tab operations starting from at least one open tab the
number of open tabs stays at least 1. -/
theorem close_tab_last_noop_min_tabs (s : BrowserState) (i : Nat) (ops : List TabOp) :
    (s.web_views.length = 1 → close_tab s i = s) ∧
    (1 ≤ s.web_views.length → 1 ≤ (applyOps s ops).web_views.length) := by
  constructor
  · intro h1
    unfold close_tab
    rw [if_pos (by omega)]
  · exact applyOps_length s ops

def tabA : Tab := ⟨1, "https://a.example/", "A"⟩

def tabB : Tab := ⟨2, "https://b.example/", "B"⟩

def oneTabState : BrowserState := ⟨[tabA], 0, [], 0⟩

def twoTabState : BrowserState := ⟨[tabA, tabB], 0, [1, 2], 0⟩

/-- Witness for C7: closing the only tab of a one-tab registry changes
nothing, and a concrete open/close/close sequence keeps at least one tab. -/
theorem close_tab_last_noop_min_tabs_witness :
    close_tab oneTabState 0 = oneTabState ∧
    1 ≤ (applyOps oneTabState
        [TabOp.openTab tabB, TabOp.closeTab 0, TabOp.closeTab 0]).web_views.length := by
  have h := close_tab_last_noop_min_tabs oneTabState 0
    [TabOp.openTab tabB, TabOp.closeTab 0, TabOp.closeTab 0]
  exact ⟨h.1 (by decide), h.2 (by decide)⟩

/-- Claim C6: closing a tab (when more than one is open) removes the entry of the closed
page from the credential-poll timer registry, so no later tick
targets that page; and a tick that does reach a torn-down page context
(`alive = false`, where `runJavaScript` raises `RuntimeError`) is a silent
no-op: zero prompts, state unchanged, no uncaught error. -/
theorem close_tab_cancels_poll (s : BrowserState) (i : Nat) (tab : Tab) (p : PageCtx)
    (h2 : 2 ≤ s.web_views.length) (hget : s.web_views.get? i = some tab)
    (hdead : p.alive = false) :
    tab.page ∉ (close_tab s i).password_timers ∧ check_for_password_save p = (0, p) := by
  constructor
  · have h1 : ¬ s.web_views.length ≤ 1 := by omega
    rw [close_tab_eq_of_get? s i tab h1 hget, set_current_tab_password_timers]
    intro hmem
    have hp := (List.mem_filter.mp hmem).2
    simp at hp
  · unfold check_for_password_save
    rw [if_neg (by simp [hdead])]

/-- Witness for C6: closing the first of two tabs drops the timer of page 1, and
a poll against a dead page returns unchanged. -/
theorem close_tab_cancels_poll_witness :
    (2 ≤ twoTabState.web_views.length ∧ twoTabState.web_views.get? 0 = some tabA ∧
      (⟨false, "", "", none⟩ : PageCtx).alive = false) ∧
    tabA.page ∉ (close_tab twoTabState 0).password_timers ∧
    check_for_password_save ⟨false, "", "", none⟩ = (0, ⟨false, "", "", none⟩) :=
  ⟨⟨by decide, by decide, rfl⟩,
    close_tab_cancels_poll twoTabState 0 tabA ⟨false, "", "", none⟩
      (by decide) (by decide) rfl⟩

/-- Claim C10: every tab operation preserves the active-index invariant
(`current_tab_index` in bounds whenever any tab is open); `set_current_tab`
with an out-of-bounds index changes nothing at all; and `close_tab`
re-establishes an in-bounds active index after an actual removal. -/
theorem current_tab_index_invariant (s : BrowserState) (op : TabOp) (j : Int) (i : Nat)
    (tab : Tab) :
    (tabInv s → tabInv (applyOp s op)) ∧
    (¬ (0 ≤ j ∧ j < (s.web_views.length : Int)) → set_current_tab s j = s) ∧
    (2 ≤ s.web_views.length → s.web_views.get? i = some tab →
      (close_tab s i).current_tab_index < (close_tab s i).web_views.length) := by
  refine ⟨?_, ?_, ?_⟩
  · intro hinv
    cases op with
    | openTab t =>
      intro _
      show (add_new_tab s t).current_tab_index < (add_new_tab s t).web_views.length
      unfold add_new_tab
      have hcast : (((s.web_views ++ [t]).length : Int) - 1) = ((s.web_views.length : Nat) : Int) := by
        simp
      rw [hcast]
      obtain ⟨hc, hv⟩ := set_current_tab_inbounds { s with web_views := s.web_views ++ [t] }
        s.web_views.length (by simp)
      rw [hc, hv]
      simp
    | closeTab i' =>
      intro hne
      have hne0 : (close_tab s i').web_views ≠ [] := hne
      show (close_tab s i').current_tab_index < (close_tab s i').web_views.length
      by_cases h1 : s.web_views.length ≤ 1
      · have heq : close_tab s i' = s := by
          unfold close_tab
          rw [if_pos h1]
        rw [heq] at hne0 ⊢
        exact hinv hne0
      · cases hget : s.web_views.get? i' with
        | none =>
          have heq : close_tab s i' = s := by
            unfold close_tab
            rw [if_neg h1, hget]
          rw [heq] at hne0 ⊢
          exact hinv hne0
        | some tb => exact close_tab_inbounds s i' tb h1 hget
    | setActive j' =>
      intro hne
      have hne0 : (set_current_tab s j').web_views ≠ [] := hne
      rw [set_current_tab_web_views] at hne0
      show (set_current_tab s j').current_tab_index < (set_current_tab s j').web_views.length
      unfold set_current_tab
      split
      · next hj =>
        show j'.toNat < s.web_views.length
        omega
      · next hj =>
        exact hinv hne0
  · intro hj
    unfold set_current_tab
    rw [if_neg hj]
  · intro h2 hget
    exact close_tab_inbounds s i tab (by omega) hget

/-- Witness for C10 on a concrete two-tab registry: closing tab 0 keeps the
invariant, `set_current_tab (-1)` is a no-op, and the active index is in
bounds after the close. -/
theorem current_tab_index_invariant_witness :
    tabInv (applyOp twoTabState (TabOp.closeTab 0)) ∧
    set_current_tab twoTabState (-1) = twoTabState ∧
    (close_tab twoTabState 0).current_tab_index < (close_tab twoTabState 0).web_views.length := by
  have h := current_tab_index_invariant twoTabState (TabOp.closeTab 0) (-1) 0 tabA
  exact ⟨h.1 (by decide), h.2.1 (by decide), h.2.2 (by decide) (by decide)⟩

/-! ## Session snapshotter (main.py:302-334, 1251-1304)

`save_session` clears the `"default"` session rows and inserts one row per
tab with `tab_index = i` (enumeration order); `restore_session` selects the
`"default"` rows ordered by `tab_index`.  `restore_previous_session` runs at
startup on the fresh `Browser` (empty `content_area`/`web_views`, empty
`tab_buttons`): it recreates one tab per non-empty stored url via
`add_new_tab` (each call activating the new tab), tracks the `tab_index` of the stored
`is_current` row in a local variable, and finally runs
`set_current_tab` on it only when it is `< len(self.tab_buttons)` — but
`tab_buttons` is never appended to anywhere in the program, so that guard
compares against length 0. -/

structure SessionRow where
  session_name : String
  tab_index : Nat
  url : String
  title : String
  is_current_tab : Bool
  deriving DecidableEq

/-- `Browser.get_current_session_data`: one `(url, title, is_current)`
triple per open tab, in display order. -/
def get_current_session_data (s : BrowserState) : List (String × String × Bool) :=
  s.web_views.enum.map (fun p => (p.2.url, p.2.title, p.1 == s.current_tab_index))

/-- `BrowserDatabase.save_session(tabs_data)`: full replace of the
`"default"` session; the resulting table contents. -/
def save_session (tabs_data : List (String × String × Bool)) : List SessionRow :=
  tabs_data.enum.map (fun p => ⟨"default", p.1, p.2.1, p.2.2.1, p.2.2.2⟩)

/-- Insertion step of the `ORDER BY tab_index` sort. -/
def insertByIndex (r : SessionRow) : List SessionRow → List SessionRow
  | [] => [r]
  | x :: xs => if x.tab_index ≤ r.tab_index then x :: insertByIndex r xs else r :: x :: xs

/-- `ORDER BY tab_index` as an insertion sort. -/
def sortByIndex : List SessionRow → List SessionRow
  | [] => []
  | x :: xs => insertByIndex x (sortByIndex xs)

/-- `BrowserDatabase.restore_session()`: the `"default"` rows ordered by
`tab_index`, projected to `(tab_index, url, title, is_current_tab)`. -/
def restore_session (rows : List SessionRow) : List (Nat × String × String × Bool) :=
  (sortByIndex (rows.filter (fun r => r.session_name == "default"))).map
    (fun r => (r.tab_index, r.url, r.title, r.is_current_tab))

/-- A tab recreated by `restore_previous_session`: label
`title or "Restored Tab"`.  Restored pages get fresh page objects; the page
id is irrelevant to the session claims and fixed at 0. -/
def restoredTab (url title : String) : Tab :=
  ⟨0, url, if title = "" then "Restored Tab" else title⟩

/-- The default tab `add_new_tab(None)` creates: the local home page. -/
def homeTab : Tab := ⟨0, "file:///pybrowse_home.html", "Blank"⟩

/-- `Browser.restore_previous_session()` (main.py:1271-1304), as run at
startup.  The clearing loops empty `content_area` and `tab_buttons` (both
already empty at startup).  The fold carries the local `current_tab_index`
variable of the Python function; the final guard is the literal
`if current_tab_index < len(self.tab_buttons)` from the source. -/
def restore_previous_session (s : BrowserState)
    (session_data : List (Nat × String × String × Bool)) : BrowserState :=
  if session_data.isEmpty then add_new_tab s homeTab
  else
    let cleared : BrowserState := { s with web_views := [], tab_buttons := 0 }
    let result := session_data.foldl
      (fun (acc : BrowserState × Nat) row =>
        if row.2.1 ≠ "" then
          (add_new_tab acc.1 (restoredTab row.2.1 row.2.2.1),
           if row.2.2.2 then row.1 else acc.2)
        else acc)
      (cleared, 0)
    if result.2 < result.1.tab_buttons then set_current_tab result.1 (result.2 : Int)
    else result.1

/-- The fresh `Browser` state at startup, before any tab exists. -/
def initialBrowserState : BrowserState := ⟨[], 0, [], 0⟩

/-- A running browser with two tabs whose first tab is active, about to be
snapshotted at shutdown. -/
def sessionOrigState : BrowserState :=
  ⟨[⟨1, "https://a.example/", "A"⟩, ⟨2, "https://b.example/", "B"⟩], 0, [], 0⟩

/-- Claim C4 fails on the code: saving the two-tab session whose first tab
is current and restoring it at startup does recreate the same ordered url
list, but leaves the last restored tab active (index 1) instead of the
previously-current tab (index 0): the `set_current_tab` call at the end of
`restore_previous_session` is dead because its guard compares against
`len(self.tab_buttons)`, a list nothing ever appends to. -/
theorem restore_previous_session_active_tab_bug :
    (restore_previous_session initialBrowserState
        (restore_session (save_session (get_current_session_data sessionOrigState)))).web_views.map
        Tab.url = ["https://a.example/", "https://b.example/"] ∧
    sessionOrigState.current_tab_index = 0 ∧
    (restore_previous_session initialBrowserState
        (restore_session (save_session (get_current_session_data sessionOrigState)))).current_tab_index
      = 1 := by
  decide

/-! ## Python string and URL helpers used by the interceptor and titles

All helpers are structural recursions over character lists so that concrete
inputs evaluate inside the kernel.  `unquotePlusChars` decodes each `%XY`
escape to the single character with code `16*X + Y` (Python decodes the
byte sequence as UTF-8; the two agree on ASCII, which is all the proofs
use). -/

/-- Python `pat in s` (substring containment). -/
def strContainsAux (pat : List Char) : List Char → Bool
  | [] => listStartsWith [] pat
  | c :: rest => listStartsWith (c :: rest) pat || strContainsAux pat rest

/-- Python `pat in s`. -/
def strContains (s pat : String) : Bool := strContainsAux pat.data s.data

/-- Split a list at the first occurrence of `c`, returning the parts before
and after it, or `none` when `c` does not occur. -/
def splitFirstChar (c : Char) : List Char → Option (List Char × List Char)
  | [] => none
  | x :: rest =>
    if x == c then some ([], rest)
    else (splitFirstChar c rest).map (fun p => (x :: p.1, p.2))

/-- Python `s.split(sep)` for a one-character separator. -/
def splitOnChar (c : Char) : List Char → List (List Char)
  | [] => [[]]
  | x :: xs =>
    if x == c then [] :: splitOnChar c xs
    else
      match splitOnChar c xs with
      | [] => [[x]]
      | r :: rs => (x :: r) :: rs

/-- Hexadecimal digit value, as `urllib.parse.unquote` accepts it. -/
def hexVal (c : Char) : Option Nat :=
  if '0' ≤ c ∧ c ≤ '9' then some (c.toNat - '0'.toNat)
  else if 'a' ≤ c ∧ c ≤ 'f' then some (c.toNat - 'a'.toNat + 10)
  else if 'A' ≤ c ∧ c ≤ 'F' then some (c.toNat - 'A'.toNat + 10)
  else none

/-- Python `urllib.parse.unquote_plus`: `+` becomes a space, a valid `%XY`
escape becomes the character with code `16*X + Y`, and an invalid `%` is
kept literally. -/
def unquotePlusChars : List Char → List Char
  | [] => []
  | '+' :: rest => ' ' :: unquotePlusChars rest
  | '%' :: a :: b :: rest =>
    match hexVal a, hexVal b with
    | some hi, some lo => Char.ofNat (16 * hi + lo) :: unquotePlusChars rest
    | _, _ => '%' :: unquotePlusChars (a :: b :: rest)
  | c :: rest => c :: unquotePlusChars rest

/-- Python `urllib.parse.unquote_plus` on strings. -/
def unquote_plus (s : String) : String := ⟨unquotePlusChars s.data⟩

/-- The `query` component as `urllib.parse.urlparse` produces it: the part
after the first `?` of the pre-fragment url, or `""`. -/
def urlQuery (url : String) : String :=
  match splitFirstChar '?' (url.data.takeWhile (fun c => c != '#')) with
  | some p => ⟨p.2⟩
  | none => ""

/-- One `name=value` field of `urllib.parse.parse_qs`: a field without `=`
or with an empty raw value is skipped (default `keep_blank_values=False`);
names and values are `unquote_plus`-decoded.  Returns the decoded value
when the decoded name is `q`. -/
def qValue (pair : List Char) : Option String :=
  match splitFirstChar '=' pair with
  | none => none
  | some p =>
    if p.2 ≠ [] ∧ unquote_plus ⟨p.1⟩ = "q" then some (unquote_plus ⟨p.2⟩) else none

/-- The expression `parse_qs(query)["q"][0]` guarded by `"q" in query_params`:
the first `q` field of the query string that survives blank-value
skipping. -/
def firstQ (query : String) : Option String :=
  (splitOnChar '&' query.data).findSome? qValue

/-! ## Navigation interceptor (`SearchInterceptor`, main.py:403-441) -/

/-- Outcome of `interceptRequest`: doing nothing allows the request,
`info.redirect` rewrites it, `info.block(True)` blocks it. -/
inductive Decision where
  | allow
  | redirect (url : String)
  | block
  deriving DecidableEq

/-- `Browser.get_search_url(query, engine)` (main.py:1601-1609): the
fixed query-template string of the engine (dictionary `get` falling back to
the Google template) with the query appended. -/
def get_search_url (query engine : String) : String :=
  (match engine with
   | "Google" => "https://www.google.com/search?q="
   | "Bing" => "https://www.bing.com/search?q="
   | "DuckDuckGo" => "https://duckduckgo.com/?q="
   | "Brave" => "https://search.brave.com/search?q="
   | "Ecosia" => "https://www.ecosia.org/search?q="
   | _ => "https://www.google.com/search?q=") ++ query

/-- `SearchInterceptor.is_ad`: the block list is empty in the source
(`blocked_domains = []`), so every membership scan fails. -/
def blocked_domains : List String := []

def is_ad (url : String) : Bool :=
  blocked_domains.any (fun domain => strContains url domain)

/-- `SearchInterceptor.interceptRequest(info)` (main.py:408-430), as a
function of the request url and the engine selected in
`search_engine_combo` (the `hasattr` guard holds on the running
`Browser`).  A Google-search url with a non-Google engine and a parseable
non-blank `q` parameter is redirected through `get_search_url`; every other
path falls through to the (empty) ad block list. -/
def interceptRequest (url current_engine : String) : Decision :=
  if strContains url "google.com/search?q=" = true ∧ current_engine ≠ "Google" then
    match firstQ (urlQuery url) with
    | some search_query => Decision.redirect (get_search_url search_query current_engine)
    | none => if is_ad url = true then Decision.block else Decision.allow
  else if is_ad url = true then Decision.block else Decision.allow

theorem is_ad_eq_false (url : String) : is_ad url = false := rfl

/-- Counterexample to claim C5 as stated: this outbound request url
contains `google.com/search?q=` and the selected engine is Bing, yet the
interceptor allows it unchanged instead of redirecting, because
`parse_qs` drops the blank `q` value and the `"q" in query_params` guard
fails. -/
theorem interceptRequest_empty_query_allows :
    interceptRequest "https://www.google.com/search?q=" "Bing" = Decision.allow ∧
    interceptRequest "https://www.google.com/search?q=" "Bing" ≠
      Decision.redirect "https://www.bing.com/search?q=" := by
  decide

/-- Claim C5 as amended: for every url containing `google.com/search?q=`,
with engine "Google" the request is allowed unchanged; with engine "Bing"
it is redirected to the Bing query template carrying the first
non-blank `q` parameter value of the url (plus/percent-decoded), and is allowed when
no such parameter parses out of the query string. -/
theorem interceptRequest_search_rewrite (url : String)
    (h : strContains url "google.com/search?q=" = true) :
    interceptRequest url "Google" = Decision.allow ∧
    interceptRequest url "Bing" =
      (match firstQ (urlQuery url) with
       | some q => Decision.redirect ("https://www.bing.com/search?q=" ++ q)
       | none => Decision.allow) := by
  constructor
  · unfold interceptRequest
    rw [if_neg (fun hc => hc.2 rfl)]
    simp [is_ad_eq_false]
  · unfold interceptRequest
    rw [if_pos ⟨h, by decide⟩]
    cases hq : firstQ (urlQuery url) with
    | none => simp [is_ad_eq_false]
    | some q => rfl

/-- Witness for the amended C5 at a concrete Google search url. -/
theorem interceptRequest_search_rewrite_witness :
    strContains "https://www.google.com/search?q=hello" "google.com/search?q=" = true ∧
    interceptRequest "https://www.google.com/search?q=hello" "Google" = Decision.allow ∧
    interceptRequest "https://www.google.com/search?q=hello" "Bing" =
      Decision.redirect "https://www.bing.com/search?q=hello" := by
  have h := interceptRequest_search_rewrite "https://www.google.com/search?q=hello" (by decide)
  refine ⟨by decide, h.1, ?_⟩
  rw [h.2]
  decide

/-! ## Title derivation (`Browser.get_clean_title`, main.py:1501-1528) -/

/-- Python `s.strip()` restricted to ASCII whitespace (all inputs used in
the proofs are ASCII). -/
def pyStrip (s : String) : String :=
  ⟨((s.data.dropWhile Char.isWhitespace).reverse.dropWhile Char.isWhitespace).reverse⟩

/-- Python `s[:n]` (first `n` characters). -/
def pyTruncate (s : String) (n : Nat) : String := ⟨s.data.take n⟩

/-- Python `s.replace(pat, "")`: delete every (non-overlapping, leftmost)
occurrence of `pat`.  The fuel argument is the input length; each step
consumes at least one character, so the fuel never runs out when it starts
at the list length. -/
def removeOccFuel (pat : List Char) : Nat → List Char → List Char
  | 0, l => l
  | _ + 1, [] => []
  | fuel + 1, c :: rest =>
    if pat ≠ [] ∧ listStartsWith (c :: rest) pat = true then
      removeOccFuel pat fuel ((c :: rest).drop pat.length)
    else c :: removeOccFuel pat fuel rest

/-- Python `s.replace(pat, "")`. -/
def pyReplaceDel (s pat : String) : String :=
  ⟨removeOccFuel pat.data s.data.length s.data⟩

/-- Scheme validity as `urllib.parse.urlsplit` checks it: a leading letter
followed by letters, digits, `+`, `-` or `.`. -/
def validSchemeChars : List Char → Bool
  | [] => false
  | c :: rest => c.isAlpha && rest.all (fun d => d.isAlphanum || d == '+' || d == '-' || d == '.')

/-- Strip a valid `scheme:` prefix, as `urlsplit` does. -/
def dropScheme (url : List Char) : List Char :=
  match splitFirstChar ':' url with
  | some p => if validSchemeChars p.1 = true then p.2 else url
  | none => url

/-- `urllib.parse.urlparse(url).netloc`: present only after a `//`, and
delimited by the next `/`, `?` or `#`. -/
def netloc (url : String) : String :=
  match dropScheme url.data with
  | '/' :: '/' :: r => ⟨r.takeWhile (fun c => c != '/' && c != '?' && c != '#')⟩
  | _ => ""

/-- `Browser.get_clean_title(raw_title, url)` on the string form of the url:
home-page urls get the fixed label; a title that is non-empty after
stripping is used (truncated to its first 27 characters plus `"..."` when
longer than 30); otherwise the netloc with every `"www."` occurrence
removed, or `"Loading..."` when that is empty.  (The
`except: return "New Page"` branch of the source is unreachable: `urlparse` does not
raise on strings.) -/
def get_clean_title (raw_title url_string : String) : String :=
  if strContains url_string "pybrowse_home.html" = true then "PyBrowse Home"
  else if pyStrip raw_title ≠ "" then
    (if (pyStrip raw_title).length > 30 then pyTruncate (pyStrip raw_title) 27 ++ "..."
     else pyStrip raw_title)
  else if pyReplaceDel (netloc url_string) "www." ≠ "" then pyReplaceDel (netloc url_string) "www."
  else "Loading..."

/-- The title-derivation policy in the words of the amended claim C9: fixed
label for home-page urls; else the trimmed raw title, truncated to 30
characters total (first 27 plus an ellipsis marker) when longer than 30;
else the host of the url with every occurrence of `"www."` removed, or the
generic placeholder when that host is empty. -/
def deriveTitle (rawTitle url : String) : String :=
  if strContains url "pybrowse_home.html" = true then "PyBrowse Home"
  else if pyStrip rawTitle = "" then
    (if pyReplaceDel (netloc url) "www." = "" then "Loading..."
     else pyReplaceDel (netloc url) "www.")
  else if (pyStrip rawTitle).length ≤ 30 then pyStrip rawTitle
  else pyTruncate (pyStrip rawTitle) 27 ++ "..."

/-- Counterexample to claim C9 as stated: with an empty raw title and the
url `https://xwww.foo.example/path`, the host is `xwww.foo.example`, which
has no leading `"www."`, yet `get_clean_title` returns `xfoo.example`
because `netloc.replace("www.", "")` deletes the interior occurrence
too. -/
theorem get_clean_title_www_counterexample :
    get_clean_title "" "https://xwww.foo.example/path" = "xfoo.example" ∧
    "xfoo.example" ≠ "xwww.foo.example" := by
  decide

/-- Claim C9 as amended: `get_clean_title` implements exactly the policy of
`deriveTitle` — fixed home label; trimmed title truncated to 30 characters
(first 27 plus `"..."`) when longer than 30; otherwise the host with every
`"www."` occurrence removed, or the placeholder when that is empty. -/
theorem get_clean_title_matches_policy (raw url : String) :
    get_clean_title raw url = deriveTitle raw url := by
  unfold get_clean_title deriveTitle
  by_cases hh : strContains url "pybrowse_home.html" = true
  · rw [if_pos hh, if_pos hh]
  · rw [if_neg hh, if_neg hh]
    by_cases ht : pyStrip raw = ""
    · rw [if_neg (fun hne => hne ht), if_pos ht]
      by_cases hd : pyReplaceDel (netloc url) "www." = ""
      · rw [if_neg (fun hne => hne hd), if_pos hd]
      · rw [if_pos hd, if_neg hd]
    · rw [if_pos ht, if_neg ht]
      by_cases hl : (pyStrip raw).length ≤ 30
      · rw [if_neg (by omega), if_pos hl]
      · rw [if_pos (by omega), if_neg hl]

end PyBrowse
